import Mathlib

/-!
# MeloTTSInfer.h: the C interface of the meloTTS inference gateway

Two developments over `src/meloTTSios/meloTTS/meloTTS/MeloTTSInfer.h`:

* `MeloTTS.Header`: the header itself, declaration by declaration, as data
  (struct declarations and function prototypes with their C types), and the
  properties of the declared surface.
* `MeloTTS.Gateway`: a model of the behaviour behind the prototypes.  The
  header carries no function body, so this part follows the written
  specification of the gateway.
-/

namespace MeloTTS

namespace Header

/-- C types that occur in MeloTTSInfer.h.  `int` is the plain, platform-width
integer; `int32_t` and `int64_t` come from stdint.h; `named` is a typedef name;
`ptr t` is `t*` and `constPtr t` is `const t*`. -/
inductive CType where
  | void
  | int
  | int32_t
  | int64_t
  | float
  | char
  | named (name : String)
  | ptr (pointee : CType)
  | constPtr (pointee : CType)
  deriving DecidableEq, Repr

/-- One declarator: a struct field or a function parameter. -/
structure Decl where
  type : CType
  name : String
  deriving DecidableEq, Repr

/-- A `typedef struct { ... } name;` declaration. -/
structure StructDecl where
  name : String
  fields : List Decl
  deriving DecidableEq, Repr

/-- A function prototype.  A `(void)` parameter list is the empty list. -/
structure FuncDecl where
  ret : CType
  name : String
  params : List Decl
  deriving DecidableEq, Repr

/-! ## The declarations, in the order of the header -/

/-- Lines 18-22. -/
def TTSResult : StructDecl :=
  { name := "TTSResult"
    fields :=
      [ ⟨.ptr .float, "audio_data"⟩,
        ⟨.int, "audio_length"⟩,
        ⟨.int, "sample_rate"⟩ ] }

/-- Lines 25-32. -/
def TTSParams : StructDecl :=
  { name := "TTSParams"
    fields :=
      [ ⟨.constPtr .char, "text"⟩,
        ⟨.int, "speaker_id"⟩,
        ⟨.float, "speed"⟩,
        ⟨.float, "noise_scale"⟩,
        ⟨.float, "noise_scale_w"⟩,
        ⟨.float, "sdp_ratio"⟩ ] }

/-- Line 35. -/
def initializeONNXRuntime : FuncDecl :=
  { ret := .int
    name := "initializeONNXRuntime"
    params :=
      [ ⟨.constPtr .char, "bert_model_path"⟩,
        ⟨.constPtr .char, "tts_model_path"⟩ ] }

/-- Line 38. -/
def runTTSInference : FuncDecl :=
  { ret := .ptr (.named "TTSResult")
    name := "runTTSInference"
    params := [ ⟨.ptr (.named "TTSParams"), "params"⟩ ] }

/-- Lines 41-48. -/
def runTTSInferenceWithParams : FuncDecl :=
  { ret := .ptr (.named "TTSResult")
    name := "runTTSInferenceWithParams"
    params :=
      [ ⟨.constPtr .char, "text"⟩,
        ⟨.int, "speaker_id"⟩,
        ⟨.float, "speed"⟩,
        ⟨.float, "noise_scale"⟩,
        ⟨.float, "noise_scale_w"⟩,
        ⟨.float, "sdp_ratio"⟩ ] }

/-- Lines 51-65. -/
def runTTSInferenceWithBertFeatures : FuncDecl :=
  { ret := .ptr (.named "TTSResult")
    name := "runTTSInferenceWithBertFeatures"
    params :=
      [ ⟨.constPtr .char, "text"⟩,
        ⟨.int, "speaker_id"⟩,
        ⟨.float, "speed"⟩,
        ⟨.float, "noise_scale"⟩,
        ⟨.float, "noise_scale_w"⟩,
        ⟨.float, "sdp_ratio"⟩,
        ⟨.constPtr .float, "bert_features"⟩,
        ⟨.constPtr .float, "ja_bert_features"⟩,
        ⟨.int, "bert_length"⟩,
        ⟨.int, "ja_bert_length"⟩,
        ⟨.constPtr .int64_t, "phone_data"⟩,
        ⟨.constPtr .int64_t, "tone_data"⟩,
        ⟨.int, "phone_length"⟩ ] }

/-- Lines 68-73. -/
def BertResult : StructDecl :=
  { name := "BertResult"
    fields :=
      [ ⟨.ptr .float, "bert_features"⟩,
        ⟨.int, "batch_size"⟩,
        ⟨.int, "max_length"⟩,
        ⟨.int, "hidden_size"⟩ ] }

/-- Line 76. -/
def runBertInference : FuncDecl :=
  { ret := .ptr (.named "BertResult")
    name := "runBertInference"
    params := [ ⟨.constPtr .char, "text"⟩ ] }

/-- Lines 79-84. -/
def runBertInferenceWithTokens : FuncDecl :=
  { ret := .ptr (.named "BertResult")
    name := "runBertInferenceWithTokens"
    params :=
      [ ⟨.constPtr .int64_t, "input_ids"⟩,
        ⟨.constPtr .int64_t, "attention_mask"⟩,
        ⟨.constPtr .int64_t, "token_type_ids"⟩,
        ⟨.int, "sequence_length"⟩ ] }

/-- Line 87. -/
def freeBertResult : FuncDecl :=
  { ret := .void
    name := "freeBertResult"
    params := [ ⟨.ptr (.named "BertResult"), "result"⟩ ] }

/-- Line 90. -/
def freeTTSResult : FuncDecl :=
  { ret := .void
    name := "freeTTSResult"
    params := [ ⟨.ptr (.named "TTSResult"), "result"⟩ ] }

/-- Line 93. -/
def cleanupONNXRuntime : FuncDecl :=
  { ret := .void
    name := "cleanupONNXRuntime"
    params := [] }

/-- Lines 96-110. -/
def runAndroidCompatibleTTS : FuncDecl :=
  { ret := .ptr (.named "TTSResult")
    name := "runAndroidCompatibleTTS"
    params :=
      [ ⟨.constPtr .char, "text"⟩,
        ⟨.int32_t, "speaker_id"⟩,
        ⟨.float, "speed"⟩,
        ⟨.float, "noise_scale"⟩,
        ⟨.float, "noise_scale_w"⟩,
        ⟨.float, "sdp_ratio"⟩,
        ⟨.constPtr .float, "bert_features"⟩,
        ⟨.constPtr .float, "ja_bert_features"⟩,
        ⟨.int32_t, "bert_length"⟩,
        ⟨.int32_t, "ja_bert_length"⟩,
        ⟨.constPtr .int64_t, "phone_data"⟩,
        ⟨.constPtr .int64_t, "tone_data"⟩,
        ⟨.int32_t, "phone_length"⟩ ] }

/-- Every struct the header declares. -/
def structs : List StructDecl := [TTSResult, TTSParams, BertResult]

/-- Every function the header declares. -/
def functions : List FuncDecl :=
  [ initializeONNXRuntime,
    runTTSInference,
    runTTSInferenceWithParams,
    runTTSInferenceWithBertFeatures,
    runBertInference,
    runBertInferenceWithTokens,
    freeBertResult,
    freeTTSResult,
    cleanupONNXRuntime,
    runAndroidCompatibleTTS ]

/-! ## Reading the declarations -/

/-- The scalar type a declarator is built on: its type with the pointers
stripped (`const int64_t*` is built on `int64_t`). -/
def CType.base : CType → CType
  | .ptr t => t.base
  | .constPtr t => t.base
  | t => t

/-- Pointer types, `T*` and `const T*`. -/
def CType.isPointer : CType → Bool
  | .ptr _ => true
  | .constPtr _ => true
  | _ => false

/-- Integer scalar types. -/
def CType.isInteger : CType → Bool
  | .int => true
  | .int32_t => true
  | .int64_t => true
  | _ => false

/-- Floating-point scalar types. -/
def CType.isFloating : CType → Bool
  | .float => true
  | _ => false

/-- Numeric scalar types. -/
def CType.isNumeric (t : CType) : Bool := t.isInteger || t.isFloating

/-- Types whose width the C standard fixes: the stdint.h integers, and `float`
(IEEE single precision on every toolchain the header targets). -/
def CType.isFixedWidth : CType → Bool
  | .int32_t => true
  | .int64_t => true
  | .float => true
  | _ => false

/-- A declarator is numeric when it is a number or an array of numbers. -/
def Decl.isNumeric (d : Decl) : Bool := d.type.base.isNumeric

/-- The type as read under a data model in which `int` is 32 bits wide. -/
def CType.int32Model : CType → CType
  | .int => .int32_t
  | .ptr t => .ptr t.int32Model
  | .constPtr t => .constPtr t.int32Model
  | t => t

/-- A declarator as read under a data model in which `int` is 32 bits wide. -/
def Decl.int32Model (d : Decl) : Decl := { d with type := d.type.int32Model }

/-- The function returns a pointer to one of the structs of the header. -/
def FuncDecl.returnsStructPtr (f : FuncDecl) : Bool :=
  structs.any fun s => f.ret = .ptr (.named s.name)

/-- Inference entry points: the functions of the `run...` family. -/
def FuncDecl.isInferenceEntryPoint (f : FuncDecl) : Bool :=
  f.name.toList.take 3 = ['r', 'u', 'n']

/-- The struct types that some inference entry point returns a pointer to. -/
def resultTypes : List CType :=
  (functions.filter FuncDecl.isInferenceEntryPoint).filterMap fun f =>
    match f.ret with
    | .ptr (.named n) => some (.named n)
    | _ => none

/-- The result structs: the declared structs among `resultTypes`. -/
def resultStructs : List StructDecl :=
  structs.filter fun s => CType.named s.name ∈ resultTypes

/-- The five call shapes of the specification. -/
inductive Variant where
  | textOnly
  | structParam
  | explicitParam
  | bertFeatureAugmented
  | androidCompatible
  deriving DecidableEq, Repr

/-- The scalar synthesis controls, as TTSParams lists them after `text`. -/
def controlNames : List String :=
  ["speaker_id", "speed", "noise_scale", "noise_scale_w", "sdp_ratio"]

/-- The call shape of a prototype, read off its parameter list: a single
string; a single pointer to TTSParams; the text and the five scalar controls;
or those followed by precomputed feature arrays, where the variant written
with stdint.h integers is the Android-compatible one. -/
def FuncDecl.variant (f : FuncDecl) : Option Variant :=
  if f.params.map Decl.type = [.constPtr .char] then some .textOnly
  else if f.params.map Decl.type = [.ptr (.named "TTSParams")] then some .structParam
  else if f.params.map Decl.name = "text" :: controlNames then some .explicitParam
  else if (f.params.map Decl.name).take 6 = "text" :: controlNames ∧
      "bert_features" ∈ f.params.map Decl.name then
    if f.params.all fun d => d.type != .int then some .androidCompatible
    else some .bertFeatureAugmented
  else none

/-- The type a release routine releases: a void function of exactly one
parameter, a mutable pointer, releases the pointee. -/
def FuncDecl.releasedType (f : FuncDecl) : Option CType :=
  if f.ret = .void then
    match f.params with
    | [d] =>
      match d.type with
      | .ptr t => some t
      | _ => none
    | _ => none
  else none

/-- The function `f` accepts a value called `name` whose type satisfies `p`,
either as a parameter or as a field of a header struct it takes by pointer. -/
def FuncDecl.accepts (f : FuncDecl) (name : String) (p : CType → Bool) : Bool :=
  (f.params.any fun d => d.name = name ∧ p d.type) ||
  (f.params.any fun d => structs.any fun s =>
    (d.type = .ptr (.named s.name) ∨ d.type = .constPtr (.named s.name)) ∧
      s.fields.any fun g => g.name = name ∧ p g.type)

/-- The word `w` occurs in `s`. -/
def occursIn (w s : List Char) : Bool :=
  s.tails.any fun t => t.take w.length = w

/-- Words that mark a declarator as an error report. -/
def errorWords : List String :=
  ["err", "status", "code", "fail", "message", "msg", "reason"]

/-- The name reads as an error report. -/
def mentionsError (name : String) : Bool :=
  errorWords.any fun w => occursIn w.toList name.toList

/-- An out-parameter that could carry an error back: a mutable pointer to a
scalar or to another pointer (`int* err`, `char** msg`). -/
def Decl.isScalarOutParam (d : Decl) : Bool :=
  match d.type with
  | .ptr (.named _) => false
  | .ptr _ => true
  | _ => false

/-- The names of the integer scalar parameters of a prototype. -/
def FuncDecl.integerParams (f : FuncDecl) : List String :=
  (f.params.filter fun d => d.type.isInteger).map Decl.name

end Header

namespace Gateway

/-! ## The gateway behind the prototypes

MeloTTSInfer.h declares the functions and the repository sources at hand hold
none of their bodies.  The definitions of this section follow the written
specification: the data model (section 3), the component design (section 4.1)
and the error handling design (section 7).  The inference engine (the
third-party runtime) is a parameter.
-/

/-- An address on the C heap.  A pointer is an `Option Addr`; `none` is NULL. -/
abbrev Addr := Nat

/-- A C `float`: the 32 bits of an IEEE single. -/
abbrev F32 := Fin 4294967296

/-- The `int` of the header on its targets, and `int32_t`: 32 bits, two's
complement.  No value outside the range can be held. -/
abbrev CInt := { n : Int // -2147483648 ≤ n ∧ n ≤ 2147483647 }

/-- The largest `int`. -/
def INT_MAX : Nat := 2147483647

/-- Conversion to `int` as a C assignment does it: the value modulo 2^32. -/
def CInt.wrap (n : Int) : CInt :=
  ⟨(n + 2147483648) % 4294967296 - 2147483648, by omega⟩

/-- Checked conversion of a count to `int`: nothing when the count is above
INT_MAX. -/
def CInt.checked (n : Nat) : Option CInt :=
  if n ≤ INT_MAX then some (CInt.wrap n) else none

/-- The `int64_t` of the header: 64 bits, two's complement. -/
abbrev CInt64 := { n : Int // -9223372036854775808 ≤ n ∧ n ≤ 9223372036854775807 }

/-- Conversion to `int64_t`: the value modulo 2^64. -/
def CInt64.wrap (n : Int) : CInt64 :=
  ⟨(n + 9223372036854775808) % 18446744073709551616 - 9223372036854775808, by omega⟩

/-- Modelled from the spec: the size in bytes of one audio sample, `sizeof(float)`
of the `float*` buffers of the header. -/
def sizeofSample : Nat := 4

/-- Modelled from the spec: the bytes one TTSResult object takes on the heap
(a pointer and two ints on a 64-bit target).  Only the heap accounting uses
it. -/
def sizeofTTSResult : Nat := 16

/-- Modelled from the spec: the bytes one BertResult object takes on the heap
(a pointer and three ints, padded, on a 64-bit target).  Only the heap
accounting uses it. -/
def sizeofBertResult : Nat := 24

/-- Modelled from the spec: the fixed sample rate of every synthesis result;
the scenario of section 8 gives 44100.  The header documents no rate. -/
def SAMPLE_RATE : CInt := CInt.wrap 44100

/-- The struct TTSResult of the header, lines 18-22, as a value. -/
structure TTSResult where
  audio_data : Option Addr
  audio_length : CInt
  sample_rate : CInt
  deriving DecidableEq, Repr

/-- The struct TTSParams of the header, lines 25-32, as a value. -/
structure TTSParams where
  text : String
  speaker_id : CInt
  speed : F32
  noise_scale : F32
  noise_scale_w : F32
  sdp_ratio : F32
  deriving DecidableEq, Repr

/-- The struct BertResult of the header, lines 68-73, as a value. -/
structure BertResult where
  bert_features : Option Addr
  batch_size : CInt
  max_length : CInt
  hidden_size : CInt
  deriving DecidableEq, Repr

/-- What one live allocation holds: a buffer of floats or a result object. -/
inductive Block where
  | floats (data : List F32)
  | ttsResult (r : TTSResult)
  | bertResult (r : BertResult)
  deriving DecidableEq, Repr

/-- The size in bytes of an allocation. -/
def Block.bytes : Block → Nat
  | .floats data => sizeofSample * data.length
  | .ttsResult _ => sizeofTTSResult
  | .bertResult _ => sizeofBertResult

/-- The heap: the live allocations, newest first, the next free address, and
the number of bytes the process can have allocated at a time. -/
structure Heap where
  live : List (Addr × Block)
  next : Addr
  capacity : Nat
  deriving DecidableEq, Repr

/-- The block allocated at an address, if that address is live. -/
def Heap.lookup (h : Heap) (a : Addr) : Option Block := h.live.lookup a

/-- The bytes of the live allocations. -/
def Heap.used (h : Heap) : Nat := (h.live.map fun e => e.2.bytes).sum

/-- Allocate a block at the next free address; nothing (malloc returns NULL)
when the capacity does not allow it. -/
def Heap.alloc (h : Heap) (b : Block) : Option (Addr × Heap) :=
  if h.used + b.bytes ≤ h.capacity then
    some (h.next, { h with live := (h.next, b) :: h.live, next := h.next + 1 })
  else
    none

/-- Release the allocation at an address. -/
def Heap.free (h : Heap) (a : Addr) : Heap :=
  { h with live := h.live.filter fun e => e.1 ≠ a }

/-- Release the allocation a pointer refers to; NULL releases nothing. -/
def Heap.freePtr (h : Heap) : Option Addr → Heap
  | none => h
  | some a => h.free a

/-- The precomputed features of the feature-augmented synthesis calls: the
arrays and the lengths passed along with them. -/
structure Features where
  bert_features : List F32
  ja_bert_features : List F32
  bert_length : CInt
  ja_bert_length : CInt
  phone_data : List CInt64
  tone_data : List CInt64
  phone_length : CInt
  deriving DecidableEq, Repr

/-- What the synthesis model is run on: the text, the speaker, the four
controls and, on the feature-augmented paths, the precomputed features. -/
structure SynthesisInput where
  text : String
  speaker_id : CInt
  speed : F32
  noise_scale : F32
  noise_scale_w : F32
  sdp_ratio : F32
  features : Option Features
  deriving DecidableEq, Repr

/-- What the feature extractor is run on: raw text, or token ids with
attention mask, token-type ids and the sequence length. -/
inductive BertInput where
  | text (text : String)
  | tokens (input_ids attention_mask token_type_ids : List CInt64)
      (sequence_length : CInt)
  deriving DecidableEq, Repr

/-- An output tensor of the feature extractor: its three dimensions and the
engine-owned element storage, read by flat index. -/
structure Tensor where
  batch_size : Nat
  max_length : Nat
  hidden_size : Nat
  data : Nat → F32

/-- Modelled from the spec: the external inference engine, opaque to the
interface.  `loadModels` tells whether both model files load;
`extractFeatures` and `synthesize` run the two models and give `none` on any
internal error. -/
structure Engine where
  loadModels : String → String → Bool
  extractFeatures : BertInput → Option Tensor
  synthesize : SynthesisInput → Option (List F32)

/-- Modelled from the spec: the runtime context of section 3, the loaded models,
bound to two file paths. -/
structure Context where
  bert_model_path : String
  tts_model_path : String
  deriving DecidableEq, Repr

/-- Modelled from the spec: the process state behind the interface, which is
the runtime context (a process-wide singleton, absent before initialization
and after cleanup) and the heap the results are allocated on. -/
structure State where
  runtime : Option Context
  heap : Heap
  deriving DecidableEq, Repr

/-- Modelled from the spec: initializeONNXRuntime (no body in the sources).
Loads both models into the process-wide context and returns status 0; returns
a negative status, leaving the state as it was, when a model does not load.
The call-once reading: with a context already present the call is outside the
contract. -/
def initializeONNXRuntime (E : Engine) (st : State)
    (bert_model_path tts_model_path : String) : Option (CInt × State) :=
  match st.runtime with
  | some _ => none
  | none =>
    if E.loadModels bert_model_path tts_model_path then
      some (CInt.wrap 0, { st with runtime := some ⟨bert_model_path, tts_model_path⟩ })
    else
      some (CInt.wrap (-1), st)

/-- Modelled from the spec: the allocation of a synthesis result (sections 3
and 7).  The samples go into a fresh float buffer and a fresh TTSResult owns
it, with the sample count in audio_length and the fixed rate in sample_rate.
A count that an `int` cannot hold, or a failed allocation, is an internal
error: nothing is built, since no partial result is returned and a result
escapes only with its length equal to the size of its buffer. -/
def buildTTSResult (h : Heap) (samples : List F32) : Option (Addr × Heap) :=
  match CInt.checked samples.length with
  | none => none
  | some count =>
    match h.alloc (.floats samples) with
    | none => none
    | some (buffer, h1) =>
      h1.alloc
        (.ttsResult
          { audio_data := some buffer
            audio_length := count
            sample_rate := SAMPLE_RATE })

/-- Modelled from the spec: the allocation of a feature-extraction result
(sections 3 and 7).  The output tensor is copied, flattened, into a fresh
buffer of batch times length times hidden floats and a fresh BertResult owns
it, with the three dimensions in its `int` fields.  A dimension that an `int`
cannot hold, or a failed allocation, is an internal error: nothing is built. -/
def buildBertResult (h : Heap) (t : Tensor) : Option (Addr × Heap) :=
  match CInt.checked t.batch_size with
  | none => none
  | some batch =>
    match CInt.checked t.max_length with
    | none => none
    | some len =>
      match CInt.checked t.hidden_size with
      | none => none
      | some hidden =>
        match h.alloc
            (.floats ((List.range (t.batch_size * t.max_length * t.hidden_size)).map
              t.data)) with
        | none => none
        | some (buffer, h1) =>
          h1.alloc
            (.bertResult
              { bert_features := some buffer
                batch_size := batch
                max_length := len
                hidden_size := hidden })

/-- Modelled from the spec: the body shared by the synthesis entry points (no
body in the sources).  Without a runtime context the call is undefined; any
internal error (of the engine, or in building the result) gives NULL and
leaves the state as it was; otherwise the result is built and its ownership
passes to the caller. -/
def synthesize (E : Engine) (st : State) (input : SynthesisInput) :
    Option (Option Addr × State) :=
  match st.runtime with
  | none => none
  | some _ =>
    match E.synthesize input with
    | none => some (none, st)
    | some samples =>
      match buildTTSResult st.heap samples with
      | none => some (none, st)
      | some (result, h2) => some (some result, { st with heap := h2 })

/-- Modelled from the spec: the body shared by the feature-extraction entry
points (no body in the sources).  Without a runtime context the call is
undefined; any internal error gives NULL and leaves the state as it was;
otherwise the result is built and its ownership passes to the caller. -/
def extractFeatures (E : Engine) (st : State) (input : BertInput) :
    Option (Option Addr × State) :=
  match st.runtime with
  | none => none
  | some _ =>
    match E.extractFeatures input with
    | none => some (none, st)
    | some t =>
      match buildBertResult st.heap t with
      | none => some (none, st)
      | some (result, h2) => some (some result, { st with heap := h2 })

/-- Modelled from the spec: runTTSInference, the struct-param variant. -/
def runTTSInference (E : Engine) (st : State) (params : TTSParams) :
    Option (Option Addr × State) :=
  synthesize E st
    { text := params.text
      speaker_id := params.speaker_id
      speed := params.speed
      noise_scale := params.noise_scale
      noise_scale_w := params.noise_scale_w
      sdp_ratio := params.sdp_ratio
      features := none }

/-- Modelled from the spec: runTTSInferenceWithParams, the explicit-param
variant. -/
def runTTSInferenceWithParams (E : Engine) (st : State) (text : String)
    (speaker_id : CInt) (speed noise_scale noise_scale_w sdp_ratio : F32) :
    Option (Option Addr × State) :=
  synthesize E st
    { text, speaker_id, speed, noise_scale, noise_scale_w, sdp_ratio, features := none }

/-- Modelled from the spec: runTTSInferenceWithBertFeatures, the variant that
is handed precomputed features and skips feature extraction. -/
def runTTSInferenceWithBertFeatures (E : Engine) (st : State) (text : String)
    (speaker_id : CInt) (speed noise_scale noise_scale_w sdp_ratio : F32)
    (features : Features) : Option (Option Addr × State) :=
  synthesize E st
    { text, speaker_id, speed, noise_scale, noise_scale_w, sdp_ratio,
      features := some features }

/-- Modelled from the spec: runAndroidCompatibleTTS, the Android-compatible
path over precomputed features. -/
def runAndroidCompatibleTTS (E : Engine) (st : State) (text : String)
    (speaker_id : CInt) (speed noise_scale noise_scale_w sdp_ratio : F32)
    (features : Features) : Option (Option Addr × State) :=
  synthesize E st
    { text, speaker_id, speed, noise_scale, noise_scale_w, sdp_ratio,
      features := some features }

/-- Modelled from the spec: runBertInference, feature extraction from text. -/
def runBertInference (E : Engine) (st : State) (text : String) :
    Option (Option Addr × State) :=
  extractFeatures E st (.text text)

/-- Modelled from the spec: runBertInferenceWithTokens, feature extraction
from token ids. -/
def runBertInferenceWithTokens (E : Engine) (st : State)
    (input_ids attention_mask token_type_ids : List CInt64) (sequence_length : CInt) :
    Option (Option Addr × State) :=
  extractFeatures E st (.tokens input_ids attention_mask token_type_ids sequence_length)

/-- Modelled from the spec: freeTTSResult (no body in the sources).  NULL is
tolerated as a no-op; a live TTSResult has its buffer and the object itself
released; any other pointer (an object already released among them) is
outside the contract. -/
def freeTTSResult (st : State) : Option Addr → Option State
  | none => some st
  | some a =>
    match st.heap.lookup a with
    | some (.ttsResult r) =>
      some { st with heap := (st.heap.freePtr r.audio_data).free a }
    | _ => none

/-- Modelled from the spec: freeBertResult (no body in the sources), as
freeTTSResult for a BertResult. -/
def freeBertResult (st : State) : Option Addr → Option State
  | none => some st
  | some a =>
    match st.heap.lookup a with
    | some (.bertResult r) =>
      some { st with heap := (st.heap.freePtr r.bert_features).free a }
    | _ => none

/-- Modelled from the spec: cleanupONNXRuntime (no body in the sources).
Releases the runtime context; the context is torn down once, so a call with
no context is outside the contract. -/
def cleanupONNXRuntime (st : State) : Option State :=
  match st.runtime with
  | none => none
  | some _ => some { st with runtime := none }

/-- One call through the interface, with its arguments. -/
inductive Call where
  | initializeONNXRuntime (bert_model_path tts_model_path : String)
  | runTTSInference (params : TTSParams)
  | runTTSInferenceWithParams (text : String) (speaker_id : CInt)
      (speed noise_scale noise_scale_w sdp_ratio : F32)
  | runTTSInferenceWithBertFeatures (text : String) (speaker_id : CInt)
      (speed noise_scale noise_scale_w sdp_ratio : F32) (features : Features)
  | runBertInference (text : String)
  | runBertInferenceWithTokens (input_ids attention_mask token_type_ids : List CInt64)
      (sequence_length : CInt)
  | freeBertResult (result : Option Addr)
  | freeTTSResult (result : Option Addr)
  | cleanupONNXRuntime
  | runAndroidCompatibleTTS (text : String) (speaker_id : CInt)
      (speed noise_scale noise_scale_w sdp_ratio : F32) (features : Features)
  deriving DecidableEq, Repr

/-- What a call returns: an `int` status, a `TTSResult*`, a `BertResult*`, or
nothing. -/
inductive Ret where
  | status (code : CInt)
  | tts (result : Option Addr)
  | bert (result : Option Addr)
  | unit
  deriving DecidableEq, Repr

/-- One call executed on a state. -/
def step (E : Engine) (st : State) : Call → Option (Ret × State)
  | .initializeONNXRuntime b t =>
    (initializeONNXRuntime E st b t).map fun r => (.status r.1, r.2)
  | .runTTSInference params =>
    (runTTSInference E st params).map fun r => (.tts r.1, r.2)
  | .runTTSInferenceWithParams text spk speed ns nsw sdp =>
    (runTTSInferenceWithParams E st text spk speed ns nsw sdp).map fun r => (.tts r.1, r.2)
  | .runTTSInferenceWithBertFeatures text spk speed ns nsw sdp feats =>
    (runTTSInferenceWithBertFeatures E st text spk speed ns nsw sdp feats).map
      fun r => (.tts r.1, r.2)
  | .runBertInference text =>
    (runBertInference E st text).map fun r => (.bert r.1, r.2)
  | .runBertInferenceWithTokens ids mask types n =>
    (runBertInferenceWithTokens E st ids mask types n).map fun r => (.bert r.1, r.2)
  | .freeBertResult p => (freeBertResult st p).map fun s => (.unit, s)
  | .freeTTSResult p => (freeTTSResult st p).map fun s => (.unit, s)
  | .cleanupONNXRuntime => (cleanupONNXRuntime st).map fun s => (.unit, s)
  | .runAndroidCompatibleTTS text spk speed ns nsw sdp feats =>
    (runAndroidCompatibleTTS E st text spk speed ns nsw sdp feats).map
      fun r => (.tts r.1, r.2)

/-- The input the engine is run on by an inference call: `Sum.inl` for a
synthesis call, `Sum.inr` for a feature-extraction call, `none` for a call
that is no inference call. -/
def Call.engineInput : Call → Option (SynthesisInput ⊕ BertInput)
  | .runTTSInference p =>
    some (.inl ⟨p.text, p.speaker_id, p.speed, p.noise_scale, p.noise_scale_w,
      p.sdp_ratio, none⟩)
  | .runTTSInferenceWithParams text spk speed ns nsw sdp =>
    some (.inl ⟨text, spk, speed, ns, nsw, sdp, none⟩)
  | .runTTSInferenceWithBertFeatures text spk speed ns nsw sdp feats =>
    some (.inl ⟨text, spk, speed, ns, nsw, sdp, some feats⟩)
  | .runAndroidCompatibleTTS text spk speed ns nsw sdp feats =>
    some (.inl ⟨text, spk, speed, ns, nsw, sdp, some feats⟩)
  | .runBertInference text => some (.inr (.text text))
  | .runBertInferenceWithTokens ids mask types n => some (.inr (.tokens ids mask types n))
  | _ => none

/-- An engine for worked examples: both models load, the extractor gives a
1 x 2 x 3 tensor, and synthesis gives five samples. -/
def exampleEngine : Engine :=
  { loadModels := fun _ _ => true
    extractFeatures := fun _ =>
      some { batch_size := 1, max_length := 2, hidden_size := 3, data := fun i => Fin.ofNat i }
    synthesize := fun _ => some [10, 20, 30, 40, 50] }

/-- The state of the worked examples after a successful initialization, with a
heap of 4096 bytes. -/
def exampleReady : State :=
  { runtime := some ⟨"bert.onnx", "tts.onnx"⟩
    heap := { live := [], next := 1, capacity := 4096 } }

/-- The state of the worked examples after runBertInferenceWithTokens on
`exampleReady`: the six floats of the 1 x 2 x 3 tensor at address 1 and the
BertResult at address 2. -/
def exampleAfterExtraction : State :=
  { runtime := some ⟨"bert.onnx", "tts.onnx"⟩
    heap :=
      { live :=
          [(2, .bertResult ⟨some 1, CInt.wrap 1, CInt.wrap 2, CInt.wrap 3⟩),
            (1, .floats [0, 1, 2, 3, 4, 5])]
        next := 3
        capacity := 4096 } }

/-- The state of the worked examples after a synthesis call on `exampleReady`:
the five samples at address 1 and the TTSResult at address 2. -/
def exampleAfterSynthesis : State :=
  { runtime := some ⟨"bert.onnx", "tts.onnx"⟩
    heap :=
      { live :=
          [(2, .ttsResult ⟨some 1, CInt.wrap 5, CInt.wrap 44100⟩),
            (1, .floats [10, 20, 30, 40, 50])]
        next := 3
        capacity := 4096 } }

/-- The synthesis call of the scenario of section 8 of the specification:
text "hello", speaker 0, speed 1.0, noise_scale 0.6, noise_scale_w 0.8 and
sdp_ratio 0.2, the floats as IEEE single bit patterns. -/
def exampleSynthesisCall : Call :=
  .runTTSInferenceWithParams "hello" (CInt.wrap 0) 1065353216 1058642330 1061997773
    1045220557

/-- A feature-extraction call on three token ids. -/
def exampleExtractionCall : Call :=
  .runBertInferenceWithTokens [CInt64.wrap 101, CInt64.wrap 7592, CInt64.wrap 102]
    [CInt64.wrap 1, CInt64.wrap 1, CInt64.wrap 1]
    [CInt64.wrap 0, CInt64.wrap 0, CInt64.wrap 0] (CInt.wrap 3)

end Gateway

namespace Header

/-! ## Properties of the declared surface -/

/-- C5, counterexample: the field `int audio_length` of TTSResult is numeric
and is declared with plain `int`, which is not a fixed-width type; so it is not
true that every numeric field is declared with a fixed-width type. -/
theorem numeric_fields_not_all_fixed_width :
    TTSResult ∈ structs ∧
    (⟨.int, "audio_length"⟩ : Decl) ∈ TTSResult.fields ∧
    Decl.isNumeric ⟨.int, "audio_length"⟩ = true ∧
    CType.isFixedWidth (CType.base .int) = false ∧
    ¬ ((∀ s ∈ structs, ∀ d ∈ s.fields, d.isNumeric = true → d.type.base.isFixedWidth = true) ∧
       (∀ f ∈ functions, ∀ d ∈ f.params, d.isNumeric = true →
          d.type.base.isFixedWidth = true)) := by
  decide

/-- C5, amended: every numeric struct field is `float*`, `float` or plain
`int`; every numeric function parameter is `const float*`, `const int64_t*`,
`float`, or an integer scalar that is `int32_t` in runAndroidCompatibleTTS and
plain `int` in every other function.  So the floating-point declarators and
the integer arrays are fixed-width, and the integer scalars are fixed-width in
runAndroidCompatibleTTS only. -/
theorem numeric_declarators_types :
    (∀ s ∈ structs, ∀ d ∈ s.fields, d.isNumeric = true →
      d.type = .ptr .float ∨ d.type = .float ∨ d.type = .int) ∧
    (∀ f ∈ functions, ∀ d ∈ f.params, d.isNumeric = true →
      d.type = .constPtr .float ∨ d.type = .constPtr .int64_t ∨ d.type = .float ∨
      (d.type = .int32_t ∧ f = runAndroidCompatibleTTS) ∨
      (d.type = .int ∧ f ≠ runAndroidCompatibleTTS)) ∧
    (∀ s ∈ structs, ∀ d ∈ s.fields, d.isNumeric = true →
      (d.type.base.isFixedWidth = true ↔ d.type.base = .float)) ∧
    (∀ f ∈ functions, ∀ d ∈ f.params, d.isNumeric = true →
      (d.type.base.isFixedWidth = true ↔
        (d.type.isPointer = true ∨ d.type = .float ∨ f = runAndroidCompatibleTTS))) := by
  decide

/-- C6: apart from runBertInferenceWithTokens the header declares exactly five
inference entry points; their call shapes are struct-param, explicit-param,
BERT-feature-augmented, text-only and Android-compatible, one each; and every
inference entry point returns a pointer to a result struct of the header,
never `int` or `void`. -/
theorem five_inference_entry_points :
    (functions.filter fun f =>
        f.isInferenceEntryPoint ∧ f ≠ runBertInferenceWithTokens) =
      [runTTSInference, runTTSInferenceWithParams, runTTSInferenceWithBertFeatures,
        runBertInference, runAndroidCompatibleTTS] ∧
    [runTTSInference, runTTSInferenceWithParams, runTTSInferenceWithBertFeatures,
        runBertInference, runAndroidCompatibleTTS].map FuncDecl.variant =
      [some .structParam, some .explicitParam, some .bertFeatureAugmented,
        some .textOnly, some .androidCompatible] ∧
    (∀ f ∈ functions, f.isInferenceEntryPoint = true →
      (f.ret = .ptr (.named "TTSResult") ∨ f.ret = .ptr (.named "BertResult")) ∧
      f.returnsStructPtr = true ∧ f.ret ≠ .int ∧ f.ret ≠ .void) ∧
    (∀ f ∈ functions, f.returnsStructPtr = true → f.isInferenceEntryPoint = true) := by
  decide

/-- C7: the result types are TTSResult and BertResult; for each of them exactly
one function of the header releases it (a void function of one parameter, a
pointer to that type); the release routines are freeBertResult and
freeTTSResult and no function releases any other type. -/
theorem one_release_routine_per_result_type :
    resultTypes.dedup = [.named "BertResult", .named "TTSResult"] ∧
    resultStructs = [TTSResult, BertResult] ∧
    (∀ t ∈ resultTypes,
      (functions.filter fun f => f.releasedType = some t).length = 1) ∧
    (functions.filter fun f => f.releasedType.isSome) = [freeBertResult, freeTTSResult] ∧
    functions.filterMap FuncDecl.releasedType = [.named "BertResult", .named "TTSResult"] ∧
    (∀ f ∈ functions, ∀ t, f.releasedType = some t → t ∈ resultTypes) := by
  refine ⟨by decide, by decide, by decide, by decide, by decide, ?_⟩
  intro f hf t ht
  have h : ∀ g ∈ functions, ∀ u ∈ g.releasedType, u ∈ resultTypes := by decide
  exact h f hf t ht

/-- C8: every function that returns `TTSResult*` accepts an integer
`speaker_id` and the four floats `speed`, `noise_scale`, `noise_scale_w` and
`sdp_ratio`, as parameters of its own or as fields of the TTSParams struct it
takes by pointer. -/
theorem synthesis_calls_accept_controls :
    ∀ f ∈ functions, f.ret = .ptr (.named "TTSResult") →
      f.accepts "speaker_id" CType.isInteger = true ∧
      f.accepts "speed" CType.isFloating = true ∧
      f.accepts "noise_scale" CType.isFloating = true ∧
      f.accepts "noise_scale_w" CType.isFloating = true ∧
      f.accepts "sdp_ratio" CType.isFloating = true := by
  decide

/-- C8, worked example: runTTSInference, which takes only a `TTSParams*`,
accepts the speaker and the four controls as the fields of TTSParams. -/
theorem synthesis_calls_accept_controls_witness :
    runTTSInference ∈ functions ∧
    runTTSInference.ret = .ptr (.named "TTSResult") ∧
    (runTTSInference.accepts "speaker_id" CType.isInteger = true ∧
      runTTSInference.accepts "speed" CType.isFloating = true ∧
      runTTSInference.accepts "noise_scale" CType.isFloating = true ∧
      runTTSInference.accepts "noise_scale_w" CType.isFloating = true ∧
      runTTSInference.accepts "sdp_ratio" CType.isFloating = true) :=
  ⟨by decide, by decide,
    synthesis_calls_accept_controls runTTSInference (by decide) (by decide)⟩

/-- C9: every function of the header returns a pointer to a result struct, or
`void`, or an `int` status, and the one that returns `int` is
initializeONNXRuntime; no parameter is a mutable pointer to a scalar or to a
pointer, no parameter name reads as an error report, and no struct of the
header (result structs included) has a field whose name reads as one. -/
theorem failure_channels :
    (∀ f ∈ functions,
      f.ret = .ptr (.named "TTSResult") ∨ f.ret = .ptr (.named "BertResult") ∨
      f.ret = .void ∨ (f.ret = .int ∧ f = initializeONNXRuntime)) ∧
    (functions.filter fun f => f.ret = .int) = [initializeONNXRuntime] ∧
    (∀ f ∈ functions, ∀ d ∈ f.params,
      d.isScalarOutParam = false ∧ mentionsError d.name = false) ∧
    (∀ s ∈ resultStructs, ∀ d ∈ s.fields, mentionsError d.name = false) ∧
    (∀ s ∈ structs, ∀ d ∈ s.fields, mentionsError d.name = false) ∧
    TTSResult.fields.map Decl.name = ["audio_data", "audio_length", "sample_rate"] ∧
    BertResult.fields.map Decl.name =
      ["bert_features", "batch_size", "max_length", "hidden_size"] := by
  decide

/-- C10: runAndroidCompatibleTTS and runTTSInferenceWithBertFeatures have the
same return type and thirteen parameters with the same names in the same
order; the types differ exactly at speaker_id, bert_length, ja_bert_length and
phone_length, which are `int32_t` in the former and `int` in the latter; read
with a 32-bit `int` the two parameter lists are equal; and in both the last
three parameters are phone_data, tone_data and phone_length, tone_data is a
`const int64_t*`, and no parameter is called tone_length. -/
theorem android_signature_matches_bert_features :
    runAndroidCompatibleTTS.ret = runTTSInferenceWithBertFeatures.ret ∧
    runAndroidCompatibleTTS.params.length = 13 ∧
    runTTSInferenceWithBertFeatures.params.length = 13 ∧
    runAndroidCompatibleTTS.params.map Decl.name =
      runTTSInferenceWithBertFeatures.params.map Decl.name ∧
    (∀ p ∈ runAndroidCompatibleTTS.params.zip runTTSInferenceWithBertFeatures.params,
      if p.1.name ∈ ["speaker_id", "bert_length", "ja_bert_length", "phone_length"] then
        p.1.type = .int32_t ∧ p.2.type = .int
      else p.1.type = p.2.type) ∧
    runAndroidCompatibleTTS.integerParams =
      ["speaker_id", "bert_length", "ja_bert_length", "phone_length"] ∧
    runTTSInferenceWithBertFeatures.integerParams =
      ["speaker_id", "bert_length", "ja_bert_length", "phone_length"] ∧
    runTTSInferenceWithBertFeatures.params.map Decl.int32Model =
      runAndroidCompatibleTTS.params ∧
    runAndroidCompatibleTTS.params.map Decl.int32Model = runAndroidCompatibleTTS.params ∧
    runTTSInferenceWithBertFeatures.ret.int32Model = runAndroidCompatibleTTS.ret ∧
    (∀ f ∈ [runAndroidCompatibleTTS, runTTSInferenceWithBertFeatures],
      (f.params.drop 10).map Decl.name = ["phone_data", "tone_data", "phone_length"] ∧
      (⟨.constPtr .int64_t, "phone_data"⟩ : Decl) ∈ f.params ∧
      (⟨.constPtr .int64_t, "tone_data"⟩ : Decl) ∈ f.params ∧
      "tone_length" ∉ f.params.map Decl.name ∧
      (f.params.filter fun d => occursIn "length".toList d.name.toList).map Decl.name =
        ["bert_length", "ja_bert_length", "phone_length"]) := by
  decide

end Header

namespace Gateway

/-! ## Properties of the gateway -/

/-- A mapped option that is `some` comes from a `some`. -/
theorem map_eq_some_inv {α β : Type} (f : α → β) (x : Option α) (b : β)
    (h : x.map f = some b) : ∃ a, x = some a ∧ f a = b := by
  cases x with
  | none => simp at h
  | some a => exact ⟨a, rfl, by simpa using h⟩

/-- A checked conversion that succeeds keeps the count, which is at most
INT_MAX. -/
theorem checked_some (n : Nat) (c : CInt) (h : CInt.checked n = some c) :
    c.val = (n : Int) ∧ n ≤ INT_MAX := by
  unfold CInt.checked at h
  by_cases hle : n ≤ INT_MAX
  · simp only [hle, if_true, Option.some.injEq] at h
    subst h
    refine ⟨?_, hle⟩
    simp only [CInt.wrap]
    unfold INT_MAX at hle
    omega
  · simp [hle] at h

/-- The checked conversion succeeds on every count up to INT_MAX. -/
theorem checked_of_le (n : Nat) (hle : n ≤ INT_MAX) :
    CInt.checked n = some (CInt.wrap n) := by
  simp [CInt.checked, hle]

/-- The checked conversion fails on every count above INT_MAX. -/
theorem checked_of_gt (n : Nat) (hgt : ¬ n ≤ INT_MAX) : CInt.checked n = none := by
  simp [CInt.checked, hgt]

/-- A successful allocation returns the next free address, adds the block
there, and had room for it. -/
theorem alloc_some (h h1 : Heap) (b : Block) (a : Addr)
    (ha : h.alloc b = some (a, h1)) :
    a = h.next ∧
    h1 = { h with live := (h.next, b) :: h.live, next := h.next + 1 } ∧
    h.used + b.bytes ≤ h.capacity := by
  unfold Heap.alloc at ha
  by_cases hle : h.used + b.bytes ≤ h.capacity
  · simp only [hle, if_true, Option.some.injEq, Prod.mk.injEq] at ha
    exact ⟨ha.1.symm, ha.2.symm, hle⟩
  · simp [hle] at ha

/-- An allocation succeeds exactly when the heap has room for the block. -/
theorem alloc_isSome (h : Heap) (b : Block) :
    (h.alloc b).isSome = true ↔ h.used + b.bytes ≤ h.capacity := by
  unfold Heap.alloc
  by_cases hle : h.used + b.bytes ≤ h.capacity
  · simp [hle]
  · simp [hle]

/-- The bytes in use after an allocation. -/
theorem used_after_alloc (h h1 : Heap) (b : Block) (a : Addr)
    (ha : h.alloc b = some (a, h1)) :
    h1.used = b.bytes + h.used ∧ h1.capacity = h.capacity := by
  obtain ⟨-, rfl, -⟩ := alloc_some _ _ _ _ ha
  simp [Heap.used]

/-- Two allocations in a row succeed exactly when the heap has room for both
blocks. -/
theorem alloc_twice_isSome (h : Heap) (b1 : Block) (b2 : Addr → Block) (n : Nat)
    (hn : ∀ a, (b2 a).bytes = n) :
    (match h.alloc b1 with
      | none => none
      | some (a, h1) => h1.alloc (b2 a)).isSome = true ↔
      h.used + b1.bytes + n ≤ h.capacity := by
  cases ha : h.alloc b1 with
  | none =>
    have h1 : ¬ (h.used + b1.bytes ≤ h.capacity) := by
      rw [← alloc_isSome, ha]; simp
    simp only [Option.isSome_none, Bool.false_eq_true, false_iff]
    omega
  | some x =>
    obtain ⟨a, h1⟩ := x
    obtain ⟨hu, hcap⟩ := used_after_alloc _ _ _ _ ha
    simp only [alloc_isSome, hu, hcap, hn]
    omega

/-- A synthesis result that has been built: the pointer refers to a live
TTSResult, the TTSResult owns the live buffer of the samples, its audio_length
is their count and its sample_rate is the fixed rate. -/
theorem buildTTSResult_some (h h2 : Heap) (samples : List F32) (p : Addr)
    (hb : buildTTSResult h samples = some (p, h2)) :
    ∃ count : CInt, count.val = (samples.length : Int) ∧
      h2.lookup p = some (.ttsResult ⟨some h.next, count, SAMPLE_RATE⟩) ∧
      h2.lookup h.next = some (.floats samples) := by
  unfold buildTTSResult at hb
  cases hc : CInt.checked samples.length with
  | none => simp [hc] at hb
  | some count =>
    simp only [hc] at hb
    cases ha : h.alloc (.floats samples) with
    | none => simp [ha] at hb
    | some x =>
      obtain ⟨buffer, h1⟩ := x
      simp only [ha] at hb
      obtain ⟨rfl, rfl, -⟩ := alloc_some _ _ _ _ ha
      obtain ⟨rfl, rfl, -⟩ := alloc_some _ _ _ _ hb
      have hne : (h.next == h.next + 1) = false := by simp
      refine ⟨count, (checked_some _ _ hc).1, ?_, ?_⟩
      · simp [Heap.lookup, List.lookup]
      · simp [Heap.lookup, List.lookup, hne]

/-- A synthesis result can be built exactly when the sample count fits an
`int` and the heap has room for the buffer and the result object. -/
theorem buildTTSResult_isSome (h : Heap) (samples : List F32) :
    (buildTTSResult h samples).isSome = true ↔
      samples.length ≤ INT_MAX ∧
      h.used + sizeofSample * samples.length + sizeofTTSResult ≤ h.capacity := by
  unfold buildTTSResult
  by_cases hle : samples.length ≤ INT_MAX
  · rw [checked_of_le _ hle]
    have key := alloc_twice_isSome h (.floats samples)
      (fun a => .ttsResult ⟨some a, CInt.wrap samples.length, SAMPLE_RATE⟩)
      sizeofTTSResult (fun _ => rfl)
    simp only [Block.bytes] at key
    simp only [key, hle, true_and]
  · rw [checked_of_gt _ hle]
    simp [hle]

/-- A feature-extraction result that has been built: the pointer refers to a
live BertResult, the BertResult owns the live buffer of the flattened tensor,
and its three `int` fields are the dimensions of the tensor. -/
theorem buildBertResult_some (h h2 : Heap) (t : Tensor) (p : Addr)
    (hb : buildBertResult h t = some (p, h2)) :
    ∃ batch len hidden : CInt, batch.val = (t.batch_size : Int) ∧
      len.val = (t.max_length : Int) ∧ hidden.val = (t.hidden_size : Int) ∧
      h2.lookup p = some (.bertResult ⟨some h.next, batch, len, hidden⟩) ∧
      h2.lookup h.next =
        some (.floats ((List.range (t.batch_size * t.max_length * t.hidden_size)).map
          t.data)) := by
  unfold buildBertResult at hb
  cases hc1 : CInt.checked t.batch_size with
  | none => simp [hc1] at hb
  | some batch =>
    cases hc2 : CInt.checked t.max_length with
    | none => simp [hc1, hc2] at hb
    | some len =>
      cases hc3 : CInt.checked t.hidden_size with
      | none => simp [hc1, hc2, hc3] at hb
      | some hidden =>
        simp only [hc1, hc2, hc3] at hb
        cases ha : h.alloc
            (.floats ((List.range (t.batch_size * t.max_length * t.hidden_size)).map
              t.data)) with
        | none => simp [ha] at hb
        | some x =>
          obtain ⟨buffer, h1⟩ := x
          simp only [ha] at hb
          obtain ⟨rfl, rfl, -⟩ := alloc_some _ _ _ _ ha
          obtain ⟨rfl, rfl, -⟩ := alloc_some _ _ _ _ hb
          have hne : (h.next == h.next + 1) = false := by simp
          refine ⟨batch, len, hidden, (checked_some _ _ hc1).1, (checked_some _ _ hc2).1,
            (checked_some _ _ hc3).1, ?_, ?_⟩
          · simp [Heap.lookup, List.lookup]
          · simp [Heap.lookup, List.lookup, hne]

/-- A non-NULL pointer returned by the shared synthesis body: the engine gave
samples and the result built from them is what the pointer refers to. -/
theorem synthesize_some (E : Engine) (st st1 : State) (input : SynthesisInput)
    (p : Addr) (h : synthesize E st input = some (some p, st1)) :
    ∃ samples h2, E.synthesize input = some samples ∧
      buildTTSResult st.heap samples = some (p, h2) ∧ st1 = { st with heap := h2 } := by
  unfold synthesize at h
  cases hr : st.runtime with
  | none => simp [hr] at h
  | some ctx =>
    cases he : E.synthesize input with
    | none => simp [hr, he] at h
    | some samples =>
      cases hb : buildTTSResult st.heap samples with
      | none => simp [hr, he, hb] at h
      | some x =>
        obtain ⟨q, h2⟩ := x
        simp only [hr, he, hb, Option.some.injEq, Prod.mk.injEq] at h
        obtain ⟨hq, hst⟩ := h
        subst hq
        exact ⟨samples, h2, rfl, hb, by rw [← hst, ← hr]⟩

/-- A non-NULL pointer returned by the shared feature-extraction body: the
engine gave a tensor and the result built from it is what the pointer refers
to. -/
theorem extractFeatures_some (E : Engine) (st st1 : State) (input : BertInput)
    (p : Addr) (h : extractFeatures E st input = some (some p, st1)) :
    ∃ t h2, E.extractFeatures input = some t ∧
      buildBertResult st.heap t = some (p, h2) ∧ st1 = { st with heap := h2 } := by
  unfold extractFeatures at h
  cases hr : st.runtime with
  | none => simp [hr] at h
  | some ctx =>
    cases he : E.extractFeatures input with
    | none => simp [hr, he] at h
    | some t =>
      cases hb : buildBertResult st.heap t with
      | none => simp [hr, he, hb] at h
      | some x =>
        obtain ⟨q, h2⟩ := x
        simp only [hr, he, hb, Option.some.injEq, Prod.mk.injEq] at h
        obtain ⟨hq, hst⟩ := h
        subst hq
        exact ⟨t, h2, rfl, hb, by rw [← hst, ← hr]⟩

/-- A synthesis call is the shared synthesis body run on its input. -/
theorem step_synthesis (E : Engine) (st : State) (c : Call) (input : SynthesisInput)
    (hin : c.engineInput = some (.inl input)) :
    step E st c = (synthesize E st input).map fun r => (.tts r.1, r.2) := by
  cases c <;> simp only [Call.engineInput, Option.some.injEq, Sum.inl.injEq,
    reduceCtorEq] at hin <;> subst hin <;> rfl

/-- A feature-extraction call is the shared feature-extraction body run on its
input. -/
theorem step_extraction (E : Engine) (st : State) (c : Call) (input : BertInput)
    (hin : c.engineInput = some (.inr input)) :
    step E st c = (extractFeatures E st input).map fun r => (.bert r.1, r.2) := by
  cases c <;> simp only [Call.engineInput, Option.some.injEq, Sum.inr.injEq,
    reduceCtorEq] at hin <;> subst hin <;> rfl

/-- A call that returns a `TTSResult*` is a synthesis call. -/
theorem step_tts_input (E : Engine) (st st1 : State) (c : Call) (r : Option Addr)
    (h : step E st c = some (.tts r, st1)) :
    ∃ input, c.engineInput = some (.inl input) := by
  cases c with
  | runTTSInference params => exact ⟨_, rfl⟩
  | runTTSInferenceWithParams text spk speed ns nsw sdp => exact ⟨_, rfl⟩
  | runTTSInferenceWithBertFeatures text spk speed ns nsw sdp feats => exact ⟨_, rfl⟩
  | runAndroidCompatibleTTS text spk speed ns nsw sdp feats => exact ⟨_, rfl⟩
  | initializeONNXRuntime b t =>
    obtain ⟨x, -, heq⟩ := map_eq_some_inv _ _ _ h
    simp at heq
  | runBertInference text =>
    obtain ⟨x, -, heq⟩ := map_eq_some_inv _ _ _ h
    simp at heq
  | runBertInferenceWithTokens ids mask types n =>
    obtain ⟨x, -, heq⟩ := map_eq_some_inv _ _ _ h
    simp at heq
  | freeBertResult q =>
    obtain ⟨x, -, heq⟩ := map_eq_some_inv _ _ _ h
    simp at heq
  | freeTTSResult q =>
    obtain ⟨x, -, heq⟩ := map_eq_some_inv _ _ _ h
    simp at heq
  | cleanupONNXRuntime =>
    obtain ⟨x, -, heq⟩ := map_eq_some_inv _ _ _ h
    simp at heq

/-- A call that returns a `BertResult*` is runBertInference or
runBertInferenceWithTokens. -/
theorem step_bert_input (E : Engine) (st st1 : State) (c : Call) (r : Option Addr)
    (h : step E st c = some (.bert r, st1)) :
    ((∃ text, c = .runBertInference text) ∨
      (∃ ids mask types n, c = .runBertInferenceWithTokens ids mask types n)) ∧
    ∃ input, c.engineInput = some (.inr input) := by
  cases c with
  | runBertInference text => exact ⟨Or.inl ⟨text, rfl⟩, _, rfl⟩
  | runBertInferenceWithTokens ids mask types n =>
    exact ⟨Or.inr ⟨ids, mask, types, n, rfl⟩, _, rfl⟩
  | runTTSInference params =>
    obtain ⟨x, -, heq⟩ := map_eq_some_inv _ _ _ h
    simp at heq
  | runTTSInferenceWithParams text spk speed ns nsw sdp =>
    obtain ⟨x, -, heq⟩ := map_eq_some_inv _ _ _ h
    simp at heq
  | runTTSInferenceWithBertFeatures text spk speed ns nsw sdp feats =>
    obtain ⟨x, -, heq⟩ := map_eq_some_inv _ _ _ h
    simp at heq
  | runAndroidCompatibleTTS text spk speed ns nsw sdp feats =>
    obtain ⟨x, -, heq⟩ := map_eq_some_inv _ _ _ h
    simp at heq
  | initializeONNXRuntime b t =>
    obtain ⟨x, -, heq⟩ := map_eq_some_inv _ _ _ h
    simp at heq
  | freeBertResult q =>
    obtain ⟨x, -, heq⟩ := map_eq_some_inv _ _ _ h
    simp at heq
  | freeTTSResult q =>
    obtain ⟨x, -, heq⟩ := map_eq_some_inv _ _ _ h
    simp at heq
  | cleanupONNXRuntime =>
    obtain ⟨x, -, heq⟩ := map_eq_some_inv _ _ _ h
    simp at heq

/-- C1: whenever a call returns a non-NULL `BertResult*` (only
runBertInference and runBertInferenceWithTokens do), the pointer refers to a
live BertResult whose bert_features points to a live float buffer, and the
length of that buffer is batch_size * max_length * hidden_size exactly, the
three factors being the values of the 32-bit `int` fields, none negative. -/
theorem bert_result_buffer_length (E : Engine) (st st1 : State) (c : Call) (p : Addr)
    (h : step E st c = some (.bert (some p), st1)) :
    ((∃ text, c = .runBertInference text) ∨
      (∃ ids mask types n, c = .runBertInferenceWithTokens ids mask types n)) ∧
    ∃ r buffer data, st1.heap.lookup p = some (.bertResult r) ∧
      r.bert_features = some buffer ∧
      st1.heap.lookup buffer = some (.floats data) ∧
      0 ≤ r.batch_size.val ∧ 0 ≤ r.max_length.val ∧ 0 ≤ r.hidden_size.val ∧
      (data.length : Int) = r.batch_size.val * r.max_length.val * r.hidden_size.val := by
  obtain ⟨hcall, input, hin⟩ := step_bert_input E st st1 c _ h
  refine ⟨hcall, ?_⟩
  rw [step_extraction E st c input hin] at h
  obtain ⟨⟨q, s⟩, hs, heq⟩ := map_eq_some_inv _ _ _ h
  simp only [Prod.mk.injEq, Ret.bert.injEq] at heq
  obtain ⟨rfl, rfl⟩ := heq
  obtain ⟨t, h2, -, hb, rfl⟩ := extractFeatures_some E st _ input p hs
  obtain ⟨batch, len, hidden, h1, h2, h3, hres, hbuf⟩ := buildBertResult_some _ _ _ _ hb
  refine ⟨_, st.heap.next, _, hres, rfl, hbuf, ?_, ?_, ?_, ?_⟩
  · simp only [h1]; exact Int.natCast_nonneg _
  · simp only [h2]; exact Int.natCast_nonneg _
  · simp only [h3]; exact Int.natCast_nonneg _
  · simp only [List.length_map, List.length_range, h1, h2, h3]
    push_cast
    ring

/-- C1, worked example: runBertInferenceWithTokens on the example engine
returns the BertResult at address 2, of dimensions 1, 2 and 3, over a buffer
of six floats. -/
theorem bert_result_buffer_length_witness :
    step exampleEngine exampleReady exampleExtractionCall =
      some (.bert (some 2), exampleAfterExtraction) ∧
    (((∃ text, exampleExtractionCall = .runBertInference text) ∨
      (∃ ids mask types n,
        exampleExtractionCall = .runBertInferenceWithTokens ids mask types n)) ∧
    ∃ r buffer data, exampleAfterExtraction.heap.lookup 2 = some (.bertResult r) ∧
      r.bert_features = some buffer ∧
      exampleAfterExtraction.heap.lookup buffer = some (.floats data) ∧
      0 ≤ r.batch_size.val ∧ 0 ≤ r.max_length.val ∧ 0 ≤ r.hidden_size.val ∧
      (data.length : Int) = r.batch_size.val * r.max_length.val * r.hidden_size.val) :=
  ⟨by decide,
    bert_result_buffer_length exampleEngine exampleReady exampleAfterExtraction
      exampleExtractionCall 2 (by decide)⟩

/-- C2: freeTTSResult(NULL) and freeBertResult(NULL) are inside the contract
and return with the state (runtime context and heap) exactly as it was. -/
theorem release_null_is_noop (E : Engine) (st : State) :
    freeTTSResult st none = some st ∧
    freeBertResult st none = some st ∧
    step E st (.freeTTSResult none) = some (.unit, st) ∧
    step E st (.freeBertResult none) = some (.unit, st) :=
  ⟨rfl, rfl, rfl, rfl⟩

/-- C3: whenever a call returns a non-NULL `TTSResult*`, the pointer refers to
a live TTSResult whose audio_data points to a live float buffer; audio_length
(a 32-bit `int`) is the number of floats in the buffer, which is at most
INT_MAX; audio_length times the size of a float equals the size in bytes of
that buffer; and sample_rate is the constant SAMPLE_RATE, which is positive. -/
theorem tts_result_buffer_and_rate (E : Engine) (st st1 : State) (c : Call) (p : Addr)
    (h : step E st c = some (.tts (some p), st1)) :
    ∃ r buffer data, st1.heap.lookup p = some (.ttsResult r) ∧
      r.audio_data = some buffer ∧
      st1.heap.lookup buffer = some (.floats data) ∧
      r.audio_length.val = (data.length : Int) ∧ data.length ≤ INT_MAX ∧
      r.audio_length.val * (sizeofSample : Int) = ((Block.floats data).bytes : Int) ∧
      r.sample_rate = SAMPLE_RATE ∧ 0 < SAMPLE_RATE.val := by
  obtain ⟨input, hin⟩ := step_tts_input E st st1 c _ h
  rw [step_synthesis E st c input hin] at h
  obtain ⟨⟨q, s⟩, hs, heq⟩ := map_eq_some_inv _ _ _ h
  simp only [Prod.mk.injEq, Ret.tts.injEq] at heq
  obtain ⟨rfl, rfl⟩ := heq
  obtain ⟨samples, h2, -, hb, rfl⟩ := synthesize_some E st _ input p hs
  obtain ⟨count, hcount, hres, hbuf⟩ := buildTTSResult_some _ _ _ _ hb
  have hfits : samples.length ≤ INT_MAX :=
    ((buildTTSResult_isSome st.heap samples).mp (by rw [hb]; rfl)).1
  refine ⟨_, st.heap.next, samples, hres, rfl, hbuf, hcount, hfits, ?_, rfl, by decide⟩
  simp only [Block.bytes, hcount]
  push_cast
  ring

/-- C3, worked example: the synthesis call of the scenario returns the
TTSResult at address 2, with five samples in a buffer of twenty bytes and the
sample rate 44100. -/
theorem tts_result_buffer_and_rate_witness :
    step exampleEngine exampleReady exampleSynthesisCall =
      some (.tts (some 2), exampleAfterSynthesis) ∧
    ∃ r buffer data, exampleAfterSynthesis.heap.lookup 2 = some (.ttsResult r) ∧
      r.audio_data = some buffer ∧
      exampleAfterSynthesis.heap.lookup buffer = some (.floats data) ∧
      r.audio_length.val = (data.length : Int) ∧ data.length ≤ INT_MAX ∧
      r.audio_length.val * (sizeofSample : Int) = ((Block.floats data).bytes : Int) ∧
      r.sample_rate = SAMPLE_RATE ∧ 0 < SAMPLE_RATE.val :=
  ⟨by decide,
    tts_result_buffer_and_rate exampleEngine exampleReady exampleAfterSynthesis
      exampleSynthesisCall 2 (by decide)⟩

end Gateway

end MeloTTS
